import Mathlib

/-!
Verification of the retrieval-augmented context engine of the tutoring chat
application, as implemented in `src/server/services/vectorService.ts` (class
`VectorService`) and its caller `src/server/video/VideoService.ts`.

The TypeScript code is shallowly embedded: each relevant method becomes a pure
Lean function over explicit inputs.  Vector search itself (the approximate
nearest-neighbour call of the underlying store) is abstracted away: search
methods take the list of candidate rows that the store returned (annotated
with their `_distance`, here the field `dist`/`score`), in ascending distance
order, and model everything the TypeScript code does with those rows.
Timestamps (`createdAt`, `Date.now()`) are modelled as integer milliseconds;
ISO-8601 strings of equal format compare lexicographically exactly as their
numeric instants do, so the SQL string comparison of `cleanupExpiredTemporaryVectors`
is the integer comparison used here.  JavaScript numbers are modelled as `ℚ`
(scores, distances) and `Int` (identifiers); the score weights 0.1/0.9,
0.5/0.5, 0.8/0.2 and the boost 0.5 are the exact rationals they denote.
JavaScript `Array.prototype.sort` is stable, i.e. its output is the unique
permutation sorted by (comparator value, original index); it is embedded as
`List.insertionSort` over the index-decorated (`List.enum`) list, which is
exactly that permutation.
-/

namespace VectorSvc

/-- One row of the `documents` collection as seen by search: the payload fields
of the LanceDB record (`text`, `documentId`, `chunkIndex`, `subjectId`,
`userId`, `sessionId`, `isTemporary`, `createdAt`) plus the `_distance`
annotation (`dist`) that the vector search attaches.  The embedding vector
itself plays no role after search and is omitted here (ingestion rows, which
carry it, are `IngestRecord` below). -/
structure DocR where
  text : String
  documentId : Int
  chunkIndex : Int
  subjectId : Int
  userId : Int
  sessionId : Int
  isTemporary : Bool
  createdAt : Int
  dist : ℚ
deriving DecidableEq

/-- One row of the `video_transcripts` collection in the shape returned by
`searchVideoTranscripts`: `{ text, videoId, chunkId, subjectId, score }` where
`score` is the raw `_distance` (`r._distance || 0`). -/
structure VRec where
  text : String
  videoId : Int
  chunkId : Int
  subjectId : Int
  score : ℚ
deriving DecidableEq

/-- Bucket label attached to every scored document result. -/
inductive Category where
  | temporary
  | permanent
  | other
deriving DecidableEq

/-- A document search result after scoring: the spread record together with
its `category` and `score` fields (`{ ...doc, category, score }`). -/
structure ScoredDoc where
  record : DocR
  category : Category
  score : ℚ
deriving DecidableEq

/-- Subject filter of `searchDocumentsWithContext` (lines 200-203):
`if (subjectId !== undefined && subjectId !== null) results.filter(r => r.subjectId === subjectId)`. -/
def subjectFilter (subjectId : Option Int) (results : List DocR) : List DocR :=
  match subjectId with
  | some s => results.filter (fun r => decide (r.subjectId = s))
  | none => results

/-- Temporary-bucket predicate (line 206-208):
`r.isTemporary === true && r.userId === userId && r.sessionId === sessionId`.
The caller identity is `Option Int` (`undefined` is `none`); the strict JS
comparison `r.userId === userId` is false whenever `userId` is `undefined`,
which is exactly `some r.userId = userId`. -/
def temporaryBucket (userId sessionId : Option Int) (r : DocR) : Bool :=
  r.isTemporary && decide (some r.userId = userId) && decide (some r.sessionId = sessionId)

/-- Permanent-bucket predicate (lines 211-213):
`r.isTemporary === false || (r.userId === 0 && r.sessionId === 0)`. -/
def permanentBucket (r : DocR) : Bool :=
  !r.isTemporary || (decide (r.userId = 0) && decide (r.sessionId = 0))

/-- Other-bucket predicate (lines 215-217):
`r.isTemporary === true && (r.userId !== userId || r.sessionId !== sessionId)`. -/
def otherBucket (userId sessionId : Option Int) (r : DocR) : Bool :=
  r.isTemporary && (decide (some r.userId ≠ userId) || decide (some r.sessionId ≠ sessionId))

/-- Retention window used by both scoring and the expiry sweep: 2 hours in
milliseconds (`2 * 60 * 60 * 1000`). -/
def twoHoursMs : Int := 2 * 60 * 60 * 1000

/-- `semanticScore = 1 - (doc._distance || 0)` (line 231). -/
def semanticScoreQ (doc : DocR) : ℚ := 1 - doc.dist

/-- `temporalScore = max(0, 1 - (Date.now() - createdAt) / (2*60*60*1000))`
(lines 232-233; records always carry a `createdAt`, so the falsy branch of
`doc.createdAt ? ... : 0` is not taken). -/
def temporalScoreQ (now : Int) (doc : DocR) : ℚ :=
  max 0 (1 - ((now - doc.createdAt : Int) : ℚ) / ((twoHoursMs : Int) : ℚ))

/-- The scoring function of `searchDocumentsWithContext` (lines 230-243): the
per-bucket weighted blend of semantic and temporal score with priority
offsets +10 / +5 / +0. -/
def scoreDocument (now : Int) (doc : DocR) (category : Category) : ℚ :=
  match category with
  | Category.temporary => (1/10) * semanticScoreQ doc + (9/10) * temporalScoreQ now doc + 10
  | Category.permanent => (1/2) * semanticScoreQ doc + (1/2) * temporalScoreQ now doc + 5
  | Category.other => (4/5) * semanticScoreQ doc + (1/5) * temporalScoreQ now doc

/-- Comparator order of `.sort((a, b) => b.score - a.score)` on the
index-decorated list: descending by score, ties kept in original order
(JS sort stability). -/
def scoreIdxGe (p q : ℕ × ScoredDoc) : Prop :=
  q.2.score < p.2.score ∨ (p.2.score = q.2.score ∧ p.1 ≤ q.1)

instance : DecidableRel scoreIdxGe := fun p q =>
  inferInstanceAs (Decidable (q.2.score < p.2.score ∨ (p.2.score = q.2.score ∧ p.1 ≤ q.1)))

/-- Stable descending-by-score sort: the embedding of
`.sort((a, b) => b.score - a.score)` (JS sort is stable, so the result is the
unique permutation sorted by score descending with ties in input order). -/
def sortDescByScore (l : List ScoredDoc) : List ScoredDoc :=
  (List.insertionSort scoreIdxGe l.enum).map Prod.snd

/-- `searchDocumentsWithContext` (lines 186-257) after the vector search:
`results` is the list the store returned for `limit(topK * 3)`, in ascending
`_distance` order.  Applies the subject filter, splits into the three buckets,
then either the anonymous fallback (lines 220-227: all buckets flattened,
relabelled `permanent`, scored `1 - distance + 5`) or the categorical scoring
path (lines 246-252), finally sorting descending by score and taking `topK`. -/
def searchDocumentsWithContext (results : List DocR) (subjectId userId sessionId : Option Int)
    (topK : ℕ) (now : Int) : List ScoredDoc :=
  let filtered := subjectFilter subjectId results
  let temporaryDocs := filtered.filter (temporaryBucket userId sessionId)
  let permanentDocs := filtered.filter permanentBucket
  let otherDocs := filtered.filter (otherBucket userId sessionId)
  if userId = none ∨ sessionId = none then
    let allDocs := temporaryDocs ++ permanentDocs ++ otherDocs
    (sortDescByScore (allDocs.map (fun doc =>
      { record := doc, category := Category.permanent, score := 1 - doc.dist + 5 }))).take topK
  else
    let scoredResults :=
      temporaryDocs.map (fun doc =>
        { record := doc, category := Category.temporary,
          score := scoreDocument now doc Category.temporary }) ++
      permanentDocs.map (fun doc =>
        { record := doc, category := Category.permanent,
          score := scoreDocument now doc Category.permanent }) ++
      otherDocs.map (fun doc =>
        { record := doc, category := Category.other,
          score := scoreDocument now doc Category.other })
    (sortDescByScore scoredResults).take topK

/-- `searchDocuments` (lines 261-263): delegates with no caller identity. -/
def searchDocuments (results : List DocR) (subjectId : Option Int) (topK : ℕ) (now : Int) :
    List ScoredDoc :=
  searchDocumentsWithContext results subjectId none none topK now

/-- The store-level `where` clause of `searchVideoTranscripts` (lines 566-579):
`if (subjectId)` is JS truthiness, so `subjectId = 0` (and `undefined`) runs
the unfiltered branch. -/
def videoSearchEligible (subjectId : Option Int) (collection : List VRec) : List VRec :=
  match subjectId with
  | some s => if s = 0 then collection else collection.filter (fun r => decide (r.subjectId = s))
  | none => collection

/-- `searchVideoTranscripts` (lines 559-593): `collection` is the whole
`video_transcripts` collection in ascending distance order for the query;
the store returns the `topK` nearest rows satisfying the `where` clause, which
are then mapped 1-1 to `{ text, videoId, chunkId, subjectId, score }`. -/
def searchVideoTranscripts (collection : List VRec) (subjectId : Option Int) (topK : ℕ) :
    List VRec :=
  (videoSearchEligible subjectId collection).take topK

/-- Comparator order of `.sort((a, b) => a.score - b.score)` on the
index-decorated list: ascending by score, ties kept in original order. -/
def scoreIdxLe (p q : ℕ × VRec) : Prop :=
  p.2.score < q.2.score ∨ (p.2.score = q.2.score ∧ p.1 ≤ q.1)

instance : DecidableRel scoreIdxLe := fun p q =>
  inferInstanceAs (Decidable (p.2.score < q.2.score ∨ (p.2.score = q.2.score ∧ p.1 ≤ q.1)))

instance : IsTotal (ℕ × VRec) scoreIdxLe := by
  constructor
  intro p q
  unfold scoreIdxLe
  rcases lt_trichotomy p.2.score q.2.score with h | h | h
  · exact Or.inl (Or.inl h)
  · rcases le_total p.1 q.1 with h2 | h2
    · exact Or.inl (Or.inr ⟨h, h2⟩)
    · exact Or.inr (Or.inr ⟨h.symm, h2⟩)
  · exact Or.inr (Or.inl h)

instance : IsTrans (ℕ × VRec) scoreIdxLe := by
  constructor
  intro p q r hpq hqr
  unfold scoreIdxLe at hpq hqr ⊢
  rcases hpq with h1 | ⟨h1, h1i⟩
  · rcases hqr with h2 | ⟨h2, _⟩
    · exact Or.inl (h1.trans h2)
    · exact Or.inl (h2 ▸ h1)
  · rcases hqr with h2 | ⟨h2, h2i⟩
    · exact Or.inl (h1 ▸ h2)
    · exact Or.inr ⟨h1.trans h2, h1i.trans h2i⟩

/-- Stable ascending-by-score sort: the embedding of
`.sort((a, b) => a.score - b.score)`. -/
def sortAscByScore (l : List VRec) : List VRec :=
  (List.insertionSort scoreIdxLe l.enum).map Prod.snd

/-- The in-place boost `r.score = r.score * 0.5` (line 726). -/
def boostRec (r : VRec) : VRec :=
  { r with score := r.score * (1/2) }

/-- Lines 721-732 of `searchCombinedForVideoQA`: partition by
`currentVideoId`, halve the scores of the current-video results, concatenate
(current first), sort ascending by score, truncate to `videoCount`. -/
def combineVideoBoost (currentVideoId : Int) (videoCount : ℕ) (videoResults : List VRec) :
    List VRec :=
  let currentVideoResults := videoResults.filter (fun r => decide (r.videoId = currentVideoId))
  let otherVideoResults := videoResults.filter (fun r => decide (r.videoId ≠ currentVideoId))
  let boosted := currentVideoResults.map boostRec
  (sortAscByScore (boosted ++ otherVideoResults)).take videoCount

/-- `Math.ceil(topK * 0.7)` (line 709).  For every result count in the
operational range the IEEE-double computation agrees with the exact rational
ceiling modelled here. -/
def docCountZ (topK : ℕ) : Int := ⌈(topK : ℚ) * (7/10)⌉

/-- `Math.floor(topK * 0.3)` (line 710), exact-rational form. -/
def videoCountZ (topK : ℕ) : Int := ⌊(topK : ℚ) * (3/10)⌋

/-- Return structure of `searchCombinedForVideoQA` (lines 739-744). -/
structure CombinedResults where
  videos : List VRec
  documents : List ScoredDoc
  totalSources : ℕ
  currentVideoId : Option Int
deriving DecidableEq

/-- `searchCombinedForVideoQA` (lines 706-752).  `docCandidates` is the raw
document search candidate list (as in `searchDocumentsWithContext`), and
`videoCollection` the transcript collection in ascending distance order.
`if (currentVideoId)` is JS truthiness, so `currentVideoId = 0` behaves like
`undefined` (no boost). -/
def searchCombinedForVideoQA (docCandidates : List DocR) (videoCollection : List VRec)
    (subjectId : Option Int) (topK : ℕ) (currentVideoId : Option Int) (now : Int) :
    CombinedResults :=
  let docCount := (docCountZ topK).toNat
  let videoCount := (videoCountZ topK).toNat
  let docResults := searchDocuments docCandidates subjectId docCount now
  let videoResults := searchVideoTranscripts videoCollection subjectId (videoCount + 3)
  let finalVideos :=
    match currentVideoId with
    | some cur =>
        if cur = 0 then videoResults.take videoCount
        else combineVideoBoost cur videoCount videoResults
    | none => videoResults.take videoCount
  { videos := finalVideos, documents := docResults,
    totalSources := finalVideos.length + docResults.length,
    currentVideoId := currentVideoId }

/-- A full row written to the `documents` collection by ingestion
(lines 142-152), embedding vector included. -/
structure IngestRecord where
  vector : List ℚ
  text : String
  documentId : Int
  chunkIndex : Int
  subjectId : Int
  userId : Int
  sessionId : Int
  isTemporary : Bool
  createdAt : Int
deriving DecidableEq

/-- `processDocumentChunks` (lines 128-172) as the list of records it adds to
the `documents` collection.  `embed` is the embedding provider
(`getEmbedding`); one call is made per record built.  The early return at
line 137 handles only the literally empty list; every chunk of a non-empty
list — whitespace-only chunks included — is embedded and indexed.
`userId || 0` and `sessionId || 0` are `Option.getD 0` (0 itself maps to 0
under both). -/
def processDocumentChunks (embed : String → List ℚ) (documentId subjectId : Int)
    (chunks : List String) (userId sessionId : Option Int) (isTemporary : Bool) (now : Int) :
    List IngestRecord :=
  if chunks.length = 0 then []
  else chunks.enum.map (fun p =>
    { vector := embed p.2, text := p.2, documentId := documentId, chunkIndex := (p.1 : Int),
      subjectId := subjectId, userId := userId.getD 0, sessionId := sessionId.getD 0,
      isTemporary := isTemporary, createdAt := now })

/-- A transcript chunk as passed to `processVideoTranscriptChunks`: its text,
its optional database `id` and its `chunkIndex` (used as `chunk.id || chunk.chunkIndex`). -/
structure TChunk where
  text : String
  id : Option Int
  chunkIndex : Int
deriving DecidableEq

/-- `chunk.id || chunk.chunkIndex` (line 537): JS `||` falls through on 0 and
`undefined`. -/
def videoChunkId (c : TChunk) : Int :=
  match c.id with
  | some i => if i = 0 then c.chunkIndex else i
  | none => c.chunkIndex

/-- A full row written to the `video_transcripts` collection (lines 533-542). -/
structure VIngestRecord where
  vector : List ℚ
  text : String
  videoId : Int
  chunkId : Int
  startTime : ℚ
  endTime : ℚ
  subjectId : Int
  createdAt : Int
deriving DecidableEq

/-- The blank test of line 530: `chunk.text && chunk.text.trim().length > 0`
is false exactly when the text is empty or all-whitespace, i.e. when every
character of the string is whitespace. -/
def isBlankText (s : String) : Bool := s.data.all Char.isWhitespace

/-- `processVideoTranscriptChunks` (lines 523-556): builds records for the
chunks whose text is truthy with non-whitespace content (line 530), calls
`add` only when the record list is non-empty, and returns the pair
(records added, returned count `vectorData.length`). -/
def processVideoTranscriptChunks (embed : String → List ℚ) (videoId subjectId : Int)
    (transcriptChunks : List TChunk) (now : Int) : List VIngestRecord × ℕ :=
  let vectorData := (transcriptChunks.filter (fun c => !(isBlankText c.text))).map (fun c =>
    { vector := embed c.text, text := c.text, videoId := videoId, chunkId := videoChunkId c,
      startTime := 0, endTime := 0, subjectId := subjectId, createdAt := now })
  (vectorData, vectorData.length)

/-- The expiry predicate of `cleanupExpiredTemporaryVectors` (line 404):
`"isTemporary" = true AND "createdAt" < '<now minus 2 hours>'` (ISO-string
comparison, equal to the numeric comparison modelled here). -/
def expiredTemporary (now : Int) (r : DocR) : Bool :=
  r.isTemporary && decide (r.createdAt < now - twoHoursMs)

/-- `cleanupExpiredTemporaryVectors` (lines 389-415): deletes the matching
rows and returns (remaining rows, `beforeCount - afterCount`). -/
def cleanupExpiredTemporaryVectors (rows : List DocR) (now : Int) : List DocR × ℕ :=
  let remaining := rows.filter (fun r => !(expiredTemporary now r))
  (remaining, rows.length - remaining.length)

/-- State of one LanceDB table: its schema (field names) and its rows. -/
structure TableState (ρ : Type) where
  schemaFields : List String
  rows : List ρ
deriving DecidableEq

/-- The schema of the `documents` table created by `initialize` (lines 67-79). -/
def documentSchemaFields : List String :=
  ["vector", "text", "documentId", "chunkIndex", "subjectId", "userId", "sessionId",
   "isTemporary", "createdAt"]

/-- The schema of the `video_transcripts` table created by `initialize`
(lines 88-99). -/
def videoSchemaFields : List String :=
  ["vector", "text", "videoId", "chunkId", "startTime", "endTime", "subjectId", "createdAt"]

/-- A table whose schema already matches what `initialize` would create. -/
def docSchemaCompatible (t : TableState IngestRecord) : Prop :=
  t.schemaFields = documentSchemaFields

/-- Fresh `documents` table as left by `initialize`: `createTable` writes the
single placeholder row (`text = "init"`, lines 67-79) which the cleanup at
line 105 deletes, leaving the schema in place and zero rows. -/
def recreatedDocumentsTable : TableState IngestRecord :=
  { schemaFields := documentSchemaFields, rows := [] }

/-- Fresh `video_transcripts` table as left by `initialize` (lines 88-99 plus
the line-106 placeholder deletion). -/
def recreatedVideoTable : TableState VIngestRecord :=
  { schemaFields := videoSchemaFields, rows := [] }

/-- `initialize` (lines 52-114) acting on the two on-disk tables.  When a
table of the given name exists it is dropped (lines 60-64 and 82-85) — the
existing schema is never inspected — and in either case a fresh table is
created; so both branches of each match produce the recreated empty table. -/
def initializeVectorService (docs : Option (TableState IngestRecord))
    (videos : Option (TableState VIngestRecord)) :
    TableState IngestRecord × TableState VIngestRecord :=
  let docsTable :=
    match docs with
    | some _ => recreatedDocumentsTable
    | none => recreatedDocumentsTable
  let videoTable :=
    match videos with
    | some _ => recreatedVideoTable
    | none => recreatedVideoTable
  (docsTable, videoTable)

/-- Environment of one `deleteVideoVectors` call: the outcome of the
limit-10000 scan (line 601), whether the drop-and-recreate sequence
(lines 612-631) succeeds, and which per-record deletes (line 640) succeed. -/
structure VideoStoreEnv where
  searchRes : Except String (List VRec)
  dropOk : Bool
  deleteOk : VRec → Bool

/-- Result of the fallible body of `deleteVideoVectors`: the returned count
and whether the `video_transcripts` table was dropped and recreated. -/
structure DelVidResult where
  count : ℕ
  droppedTable : Bool
deriving DecidableEq

/-- The `try` body of `deleteVideoVectors` (lines 599-648): scan, partition
by `videoId`, return 0 if nothing matches; drop and recreate the whole table
when nothing would remain; otherwise delete record-by-record, counting only
the deletes that succeed (individual failures are caught at lines 642-644 and
skipped).  A search failure or a drop/create failure propagates out of the
body as `Except.error`. -/
def deleteVideoVectorsCore (env : VideoStoreEnv) (videoId : Int) : Except String DelVidResult :=
  match env.searchRes with
  | Except.error e => Except.error e
  | Except.ok allRecords =>
    let recordsToKeep := allRecords.filter (fun r => decide (r.videoId ≠ videoId))
    let recordsToDelete := allRecords.filter (fun r => decide (r.videoId = videoId))
    if recordsToDelete.length = 0 then
      Except.ok { count := 0, droppedTable := false }
    else if recordsToKeep.length = 0 then
      if env.dropOk then Except.ok { count := recordsToDelete.length, droppedTable := true }
      else Except.error "drop or create of video_transcripts failed"
    else
      Except.ok { count := (recordsToDelete.filter env.deleteOk).length, droppedTable := false }

/-- The `try { ... } catch { ...; return 0 }` block of `deleteVideoVectors`
(lines 599-652): every failure of the fallible body collapses to the return
value 0. -/
def deleteVideoVectorsCaught (env : VideoStoreEnv) (videoId : Int) : ℕ :=
  match deleteVideoVectorsCore env videoId with
  | Except.ok r => r.count
  | Except.error _ => 0

/-- `deleteVideoVectors` (lines 596-653) in full.  Its first statement —
`if (!this.videoTable) await this.initialize();` (line 597) — sits OUTSIDE
the try/catch: when the table handle is still null (live after a survived
startup-initialization failure) it re-runs `initialize`, whose own failure
rethrows (line 112) and escapes the method; only once past line 597 does the
catch-all of `deleteVideoVectorsCaught` apply.  `videoTableReady` is whether
`this.videoTable` is non-null on entry; `initResult` is the outcome of the
lazy `initialize()` call taken when it is null. -/
def deleteVideoVectors (videoTableReady : Bool) (initResult : Except String Unit)
    (env : VideoStoreEnv) (videoId : Int) : Except String ℕ :=
  if videoTableReady then
    Except.ok (deleteVideoVectorsCaught env videoId)
  else
    match initResult with
    | Except.error e => Except.error e
    | Except.ok _ => Except.ok (deleteVideoVectorsCaught env videoId)

/-- The temporal score always lies in `[0, 1]` once the record is not from
the future. -/
theorem temporalScoreQ_bounds (now : Int) (r : DocR) (h : r.createdAt ≤ now) :
    0 ≤ temporalScoreQ now r ∧ temporalScoreQ now r ≤ 1 := by
  constructor
  · exact le_max_left _ _
  · apply max_le (by norm_num)
    have hnum : (0:ℚ) ≤ ((now - r.createdAt : Int) : ℚ) := by
      exact_mod_cast sub_nonneg.mpr h
    have hden : (0:ℚ) ≤ ((twoHoursMs : Int) : ℚ) := by norm_num [twoHoursMs]
    have hdiv : (0:ℚ) ≤ ((now - r.createdAt : Int) : ℚ) / ((twoHoursMs : Int) : ℚ) :=
      div_nonneg hnum hden
    linarith

/-- C2 is false as stated: the record with `isTemporary = true` and owner
`(0, 0)` — the ambiguous row the data model forbids but ingestion never
rejects — satisfies both the temporary-bucket and the permanent-bucket
predicate for the caller context `(userId, sessionId) = (0, 0)`, so it is
classified (and scored) twice. -/
theorem bucket_overlap_counterexample :
    temporaryBucket (some 0) (some 0)
      { text := "ambiguous", documentId := 1, chunkIndex := 0, subjectId := 1, userId := 0,
        sessionId := 0, isTemporary := true, createdAt := 0, dist := 0 } = true ∧
    permanentBucket
      { text := "ambiguous", documentId := 1, chunkIndex := 0, subjectId := 1, userId := 0,
        sessionId := 0, isTemporary := true, createdAt := 0, dist := 0 } = true := by
  constructor <;> rfl

/-- C2 amended: for every chunk record satisfying the §3 data-model
invariant (`isTemporary = true` implies a non-zero owner pair) and every
caller context — the anonymous `none` cases included — exactly one of the
three bucket predicates of `searchDocumentsWithContext` holds, so such a
record is never scored twice.  Without the invariant the claim fails
(`bucket_overlap_counterexample`). -/
theorem bucket_exclusivity (r : DocR) (userId sessionId : Option Int)
    (hinv : r.isTemporary = true → ¬(r.userId = 0 ∧ r.sessionId = 0)) :
    (temporaryBucket userId sessionId r).toNat + (permanentBucket r).toNat
      + (otherBucket userId sessionId r).toNat = 1 := by
  unfold temporaryBucket permanentBucket otherBucket
  cases hT : r.isTemporary with
  | false => simp [hT]
  | true =>
    have hP : ¬(r.userId = 0 ∧ r.sessionId = 0) := hinv hT
    have hperm : (decide (r.userId = 0) && decide (r.sessionId = 0)) = false := by
      rcases not_and_or.mp hP with h | h <;> simp [h]
    by_cases hu : some r.userId = userId <;> by_cases hs : some r.sessionId = sessionId <;>
      simp [hT, hperm, hu, hs]

/-- Concrete instantiation of `bucket_exclusivity`: a session-owned temporary
record queried by its own session falls in exactly one bucket. -/
theorem bucket_exclusivity_witness :
    (temporaryBucket (some 9) (some 100)
        { text := "mine", documentId := 50, chunkIndex := 0, subjectId := 2, userId := 9,
          sessionId := 100, isTemporary := true, createdAt := 0, dist := 0 }).toNat
      + (permanentBucket
        { text := "mine", documentId := 50, chunkIndex := 0, subjectId := 2, userId := 9,
          sessionId := 100, isTemporary := true, createdAt := 0, dist := 0 }).toNat
      + (otherBucket (some 9) (some 100)
        { text := "mine", documentId := 50, chunkIndex := 0, subjectId := 2, userId := 9,
          sessionId := 100, isTemporary := true, createdAt := 0, dist := 0 }).toNat = 1 :=
  bucket_exclusivity
    { text := "mine", documentId := 50, chunkIndex := 0, subjectId := 2, userId := 9,
      sessionId := 100, isTemporary := true, createdAt := 0, dist := 0 }
    (some 9) (some 100) (by decide)

/-- C4: with distances in `[0, 2]` and non-negative ages, bucket scores never
interleave — every temporary-bucket composite score strictly exceeds every
permanent-bucket score, and every permanent-bucket score strictly exceeds
every other-bucket score (so equal semantic/temporal scores in particular
rank temporary above permanent). -/
theorem bucket_priority_ordering (now : Int) (r1 r2 : DocR)
    (h1 : 0 ≤ r1.dist) (h2 : r1.dist ≤ 2) (h3 : 0 ≤ r2.dist) (h4 : r2.dist ≤ 2)
    (h5 : r1.createdAt ≤ now) (h6 : r2.createdAt ≤ now) :
    scoreDocument now r2 Category.permanent < scoreDocument now r1 Category.temporary ∧
    scoreDocument now r2 Category.other < scoreDocument now r1 Category.permanent := by
  obtain ⟨t1a, t1b⟩ := temporalScoreQ_bounds now r1 h5
  obtain ⟨t2a, t2b⟩ := temporalScoreQ_bounds now r2 h6
  simp only [scoreDocument, semanticScoreQ]
  constructor <;> nlinarith [t1a, t1b, t2a, t2b]

/-- Concrete instantiation of `bucket_priority_ordering` at distance 0 and
age 0 on both sides. -/
theorem bucket_priority_ordering_witness :
    scoreDocument 0
        { text := "b", documentId := 2, chunkIndex := 0, subjectId := 1, userId := 0,
          sessionId := 0, isTemporary := false, createdAt := 0, dist := 0 }
        Category.permanent
      < scoreDocument 0
        { text := "a", documentId := 1, chunkIndex := 0, subjectId := 1, userId := 9,
          sessionId := 100, isTemporary := true, createdAt := 0, dist := 0 }
        Category.temporary ∧
    scoreDocument 0
        { text := "b", documentId := 2, chunkIndex := 0, subjectId := 1, userId := 0,
          sessionId := 0, isTemporary := false, createdAt := 0, dist := 0 }
        Category.other
      < scoreDocument 0
        { text := "a", documentId := 1, chunkIndex := 0, subjectId := 1, userId := 9,
          sessionId := 100, isTemporary := true, createdAt := 0, dist := 0 }
        Category.permanent :=
  bucket_priority_ordering 0
    { text := "a", documentId := 1, chunkIndex := 0, subjectId := 1, userId := 9,
      sessionId := 100, isTemporary := true, createdAt := 0, dist := 0 }
    { text := "b", documentId := 2, chunkIndex := 0, subjectId := 1, userId := 0,
      sessionId := 0, isTemporary := false, createdAt := 0, dist := 0 }
    (by norm_num) (by norm_num) (by norm_num) (by norm_num) (by norm_num) (by norm_num)

/-- C6: after the expiry sweep no expired temporary row remains, the
non-temporary rows are exactly those of the input (in order), and the
returned count is exactly the number of rows removed. -/
theorem expiry_sweep_correct (rows : List DocR) (now : Int) :
    (cleanupExpiredTemporaryVectors rows now).1.filter (expiredTemporary now) = [] ∧
    (cleanupExpiredTemporaryVectors rows now).1.filter (fun r => !r.isTemporary)
        = rows.filter (fun r => !r.isTemporary) ∧
    (cleanupExpiredTemporaryVectors rows now).2
        = (rows.filter (expiredTemporary now)).length := by
  refine ⟨?_, ?_, ?_⟩
  · simp only [cleanupExpiredTemporaryVectors, List.filter_filter]
    apply List.filter_eq_nil_iff.mpr
    intro a _
    cases h : expiredTemporary now a <;> simp [h]
  · simp only [cleanupExpiredTemporaryVectors, List.filter_filter]
    apply List.filter_congr
    intro r _
    cases h : r.isTemporary with
    | false => simp [expiredTemporary, h]
    | true => simp [h]
  · simp only [cleanupExpiredTemporaryVectors]
    have hsplit := List.length_eq_length_filter_add (l := rows) (expiredTemporary now)
    omega

/-- C9: the two collections disagree at `subjectId = 0`.  Transcript search
(`if (subjectId)`, JS truthiness) applies no filter at all for subject 0,
while document retrieval (`subjectId !== undefined && subjectId !== null`)
filters to exactly the rows whose `subjectId` equals 0; a subject-1 row
witnesses the disagreement. -/
theorem subject_zero_filter_asymmetry :
    (∀ (collection : List VRec) (topK : ℕ),
        searchVideoTranscripts collection (some 0) topK = collection.take topK) ∧
    (∀ (results : List DocR) (userId sessionId : Option Int) (topK : ℕ) (now : Int),
        searchDocumentsWithContext results (some 0) userId sessionId topK now
          = searchDocumentsWithContext (results.filter (fun r => decide (r.subjectId = 0)))
              none userId sessionId topK now) ∧
    (searchVideoTranscripts
        [{ text := "video chunk", videoId := 4, chunkId := 0, subjectId := 1, score := 0 }]
        (some 0) 5
      = [{ text := "video chunk", videoId := 4, chunkId := 0, subjectId := 1, score := 0 }] ∧
     searchDocumentsWithContext
        [{ text := "doc chunk", documentId := 3, chunkIndex := 0, subjectId := 1, userId := 0,
           sessionId := 0, isTemporary := false, createdAt := 0, dist := 0 }]
        (some 0) none none 5 0 = []) := by
  refine ⟨fun collection topK => rfl, fun results userId sessionId topK now => ?_, ?_, ?_⟩
  · simp only [searchDocumentsWithContext, subjectFilter]
  · rfl
  · rfl

/-- C10 is false as stated: the lazy re-initialization at line 597 sits
outside the try/catch, so with a null table handle (live after a survived
startup-initialization failure) and a still-unreachable store,
`deleteVideoVectors` raises to `VideoService.deleteVideo` instead of
returning a number. -/
theorem delete_video_vectors_raises_counterexample :
    deleteVideoVectors false (Except.error "store unreachable")
        { searchRes := Except.error "store unreachable", dropOk := true,
          deleteOk := fun _ => true } 5
      = Except.error "store unreachable" ∧
    ∀ n : ℕ, deleteVideoVectors false (Except.error "store unreachable")
        { searchRes := Except.error "store unreachable", dropOk := true,
          deleteOk := fun _ => true } 5 ≠ Except.ok n := by
  constructor
  · rfl
  · intro n h
    simp [deleteVideoVectors] at h

/-- C10 amended: once past the un-caught lazy `initialize()` of line 597 —
in particular whenever the video-table handle is already initialized —
`deleteVideoVectors` never raises: every internal failure of the store
inside the body is swallowed by the catch-all and yields 0, exactly the
value returned when no row matches the `videoId`, so a failed cleanup is
indistinguishable from an empty one.  But when the handle is null and the
lazy `initialize()` fails, the failure propagates to the caller. -/
theorem delete_video_vectors_error_swallowed (env : VideoStoreEnv) (videoId : Int) :
    (∀ initResult : Except String Unit,
        deleteVideoVectors true initResult env videoId
          = Except.ok (deleteVideoVectorsCaught env videoId)) ∧
    (∀ e, deleteVideoVectorsCore env videoId = Except.error e →
        deleteVideoVectorsCaught env videoId = 0) ∧
    (∀ allRecords, env.searchRes = Except.ok allRecords →
        allRecords.filter (fun r => decide (r.videoId = videoId)) = [] →
        deleteVideoVectorsCaught env videoId = 0) ∧
    (∀ e, deleteVideoVectors false (Except.error e) env videoId = Except.error e) := by
  refine ⟨fun initResult => rfl, ?_, ?_, fun e => rfl⟩
  · intro e he
    simp [deleteVideoVectorsCaught, he]
  · intro allRecords hok hnone
    simp only [deleteVideoVectorsCaught, deleteVideoVectorsCore, hok, hnone, List.length_nil]
    simp

/-- Concrete instantiation of `delete_video_vectors_error_swallowed`: with
the handle initialized, an unreachable store and a store with no matching
rows both yield `Except.ok 0`, while a null handle with a failing lazy
`initialize()` propagates the error. -/
theorem delete_video_vectors_error_swallowed_witness :
    deleteVideoVectors true (Except.ok ())
        { searchRes := Except.error "store unreachable", dropOk := true,
          deleteOk := fun _ => true } 5
      = Except.ok (deleteVideoVectorsCaught
          { searchRes := Except.error "store unreachable", dropOk := true,
            deleteOk := fun _ => true } 5) ∧
    deleteVideoVectorsCaught
        { searchRes := Except.error "store unreachable", dropOk := true,
          deleteOk := fun _ => true } 5 = 0 ∧
    deleteVideoVectorsCaught
        { searchRes := Except.ok [], dropOk := true, deleteOk := fun _ => true } 5 = 0 ∧
    deleteVideoVectors false (Except.error "init failed")
        { searchRes := Except.ok [], dropOk := true, deleteOk := fun _ => true } 5
      = Except.error "init failed" :=
  ⟨(delete_video_vectors_error_swallowed
      { searchRes := Except.error "store unreachable", dropOk := true,
        deleteOk := fun _ => true } 5).1 (Except.ok ()),
   (delete_video_vectors_error_swallowed
      { searchRes := Except.error "store unreachable", dropOk := true,
        deleteOk := fun _ => true } 5).2.1 "store unreachable" rfl,
   (delete_video_vectors_error_swallowed
      { searchRes := Except.ok [], dropOk := true, deleteOk := fun _ => true } 5).2.2.1
      [] rfl rfl,
   (delete_video_vectors_error_swallowed
      { searchRes := Except.ok [], dropOk := true, deleteOk := fun _ => true } 5).2.2.2
      "init failed"⟩

/-- C5 is false as stated for the document side: a whitespace-only chunk is
embedded and indexed by `processDocumentChunks` — the early return only
covers the literally empty chunk list, there is no per-chunk blank filter. -/
theorem whitespace_chunk_indexed_counterexample :
    processDocumentChunks (fun _ => []) 7 2 [" "] none none false 0
      = [{ vector := [], text := " ", documentId := 7, chunkIndex := 0, subjectId := 2,
           userId := 0, sessionId := 0, isTemporary := false, createdAt := 0 }] ∧
    processDocumentChunks (fun _ => []) 7 2 [" "] none none false 0 ≠ [] := by
  constructor
  · rfl
  · simp [processDocumentChunks]

/-- C5 amended: only video-transcript ingestion skips blank chunks (an
all-blank transcript input is a no-op returning count 0, not an error);
document ingestion is a no-op only for the empty chunk list and otherwise
builds one record (with one embedding call) per chunk, whitespace-only
chunks included. -/
theorem ingestion_blank_chunk_handling :
    (∀ (embed : String → List ℚ) (videoId subjectId : Int) (transcriptChunks : List TChunk)
        (now : Int), (∀ c ∈ transcriptChunks, isBlankText c.text = true) →
        processVideoTranscriptChunks embed videoId subjectId transcriptChunks now = ([], 0)) ∧
    (∀ (embed : String → List ℚ) (documentId subjectId : Int) (userId sessionId : Option Int)
        (isTemporary : Bool) (now : Int),
        processDocumentChunks embed documentId subjectId [] userId sessionId isTemporary now
          = []) ∧
    (∀ (embed : String → List ℚ) (documentId subjectId : Int) (chunks : List String)
        (userId sessionId : Option Int) (isTemporary : Bool) (now : Int), chunks ≠ [] →
        (processDocumentChunks embed documentId subjectId chunks userId sessionId isTemporary
            now).length = chunks.length) := by
  refine ⟨?_, ?_, ?_⟩
  · intro embed videoId subjectId transcriptChunks now hblank
    have hfil : transcriptChunks.filter (fun c => !(isBlankText c.text)) = [] := by
      apply List.filter_eq_nil_iff.mpr
      intro c hc
      simp [hblank c hc]
    simp only [processVideoTranscriptChunks, hfil, List.map_nil, List.length_nil]
  · intro embed documentId subjectId userId sessionId isTemporary now
    rfl
  · intro embed documentId subjectId chunks userId sessionId isTemporary now hne
    have hlen : ¬(chunks.length = 0) := by
      simpa [List.length_eq_zero] using hne
    simp [processDocumentChunks, hlen]

/-- Concrete instantiation of `ingestion_blank_chunk_handling`: a transcript
input consisting of one whitespace-only chunk is a no-op, while the same-text
document input produces one record. -/
theorem ingestion_blank_chunk_handling_witness :
    processVideoTranscriptChunks (fun _ => []) 4 2 [{ text := " ", id := none, chunkIndex := 0 }] 0
        = ([], 0) ∧
    (processDocumentChunks (fun _ => []) 7 2 [" "] none none false 0).length = [" "].length :=
  ⟨ingestion_blank_chunk_handling.1 (fun _ => []) 4 2
      [{ text := " ", id := none, chunkIndex := 0 }] 0 (by decide),
   ingestion_blank_chunk_handling.2.2 (fun _ => []) 7 2 [" "] none none false 0 (by simp)⟩

/-- C3 is false as stated: `initialize` never inspects the schema of an
existing collection — a `documents` table whose schema already matches the
one `initialize` would create, and which holds a row, is dropped all the
same, losing the row. -/
theorem compatible_collection_dropped_counterexample :
    docSchemaCompatible
      { schemaFields := documentSchemaFields,
        rows := [{ vector := [], text := "keep", documentId := 7, chunkIndex := 0, subjectId := 2,
                   userId := 0, sessionId := 0, isTemporary := false, createdAt := 0 }] } ∧
    ({ schemaFields := documentSchemaFields,
       rows := [{ vector := [], text := "keep", documentId := 7, chunkIndex := 0, subjectId := 2,
                  userId := 0, sessionId := 0, isTemporary := false, createdAt := 0 }] }
        : TableState IngestRecord).rows ≠ [] ∧
    (initializeVectorService
        (some { schemaFields := documentSchemaFields,
                rows := [{ vector := [], text := "keep", documentId := 7, chunkIndex := 0,
                           subjectId := 2, userId := 0, sessionId := 0, isTemporary := false,
                           createdAt := 0 }] })
        none).1.rows = [] := by
  refine ⟨rfl, ?_, rfl⟩
  simp

/-- C3 amended: the destructive re-creation is unconditional and not confined
to process start — `initialize` drops and recreates both collections empty
whatever the existing schema or contents, and `deleteVideoVectors` (reached
from user-triggered video deletion) drops and recreates the
`video_transcripts` collection mid-process whenever the fetched records are
non-empty and all belong to the deleted video. -/
theorem destructive_recreation_unconditional :
    (∀ (docs : Option (TableState IngestRecord)) (videos : Option (TableState VIngestRecord)),
        (initializeVectorService docs videos).1.rows = [] ∧
        (initializeVectorService docs videos).2.rows = []) ∧
    (∀ (env : VideoStoreEnv) (videoId : Int) (allRecords : List VRec),
        env.searchRes = Except.ok allRecords → allRecords ≠ [] →
        (∀ r ∈ allRecords, r.videoId = videoId) → env.dropOk = true →
        deleteVideoVectorsCore env videoId
          = Except.ok { count := allRecords.length, droppedTable := true }) := by
  constructor
  · intro docs videos
    rcases docs with _ | d <;> rcases videos with _ | v <;> exact ⟨rfl, rfl⟩
  · intro env videoId allRecords hok hne hall hdrop
    have hdel : allRecords.filter (fun r => decide (r.videoId = videoId)) = allRecords := by
      apply List.filter_eq_self.mpr
      intro r hr
      simp [hall r hr]
    have hkeep : allRecords.filter (fun r => decide (r.videoId ≠ videoId)) = [] := by
      apply List.filter_eq_nil_iff.mpr
      intro r hr
      simp [hall r hr]
    have hlen : ¬(allRecords.length = 0) := by
      simpa [List.length_eq_zero] using hne
    simp only [deleteVideoVectorsCore, hok, hdel, hkeep, hdrop, List.length_nil]
    simp [hlen]

/-- Concrete instantiation of `destructive_recreation_unconditional`: with a
single fetched record belonging to video 5, `deleteVideoVectors` takes the
drop-and-recreate path. -/
theorem destructive_recreation_unconditional_witness :
    (initializeVectorService none none).1.rows = [] ∧
    deleteVideoVectorsCore
        { searchRes := Except.ok
            [{ text := "only chunk", videoId := 5, chunkId := 0, subjectId := 2, score := 0 }],
          dropOk := true, deleteOk := fun _ => true } 5
      = Except.ok { count := 1, droppedTable := true } :=
  ⟨(destructive_recreation_unconditional.1 none none).1,
   destructive_recreation_unconditional.2
      { searchRes := Except.ok
          [{ text := "only chunk", videoId := 5, chunkId := 0, subjectId := 2, score := 0 }],
        dropOk := true, deleteOk := fun _ => true } 5
      [{ text := "only chunk", videoId := 5, chunkId := 0, subjectId := 2, score := 0 }]
      rfl (by simp) (by intro r hr; simp at hr; simp [hr]) rfl⟩

/-- C1 fails on the code: the Video Q&A combiner reaches the documents via
`searchDocuments`, which passes `undefined` caller identity to
`searchDocumentsWithContext`; the anonymous fallback (lines 220-227) then
returns records of ALL three buckets — temporary rows of arbitrary sessions
included, relabelled `category = "permanent"` — contradicting the comment at
line 712 (`Search permanent documents only (no temporary docs for video Q&A)`).
Here a session-scoped temporary chunk (owner user 9, session 100) is the sole
candidate and is returned by the combiner. -/
theorem video_qa_returns_temporary_doc :
    (searchCombinedForVideoQA
        [{ text := "temporary chunk", documentId := 50, chunkIndex := 0, subjectId := 2,
           userId := 9, sessionId := 100, isTemporary := true, createdAt := 0, dist := 1/10 }]
        [] (some 2) 1 none 0).documents
      = [{ record := { text := "temporary chunk", documentId := 50, chunkIndex := 0,
                       subjectId := 2, userId := 9, sessionId := 100, isTemporary := true,
                       createdAt := 0, dist := 1/10 },
           category := Category.permanent, score := 59/10 }] ∧
    ((searchCombinedForVideoQA
        [{ text := "temporary chunk", documentId := 50, chunkIndex := 0, subjectId := 2,
           userId := 9, sessionId := 100, isTemporary := true, createdAt := 0, dist := 1/10 }]
        [] (some 2) 1 none 0).documents.map (fun d => d.record.isTemporary)) = [true] := by
  have hdc : docCountZ 1 = 1 := by
    rw [docCountZ, Int.ceil_eq_iff] <;> norm_num
  have hvc : videoCountZ 1 = 0 := by
    rw [videoCountZ, Int.floor_eq_iff] <;> norm_num
  have hmain : (searchCombinedForVideoQA
      [{ text := "temporary chunk", documentId := 50, chunkIndex := 0, subjectId := 2,
         userId := 9, sessionId := 100, isTemporary := true, createdAt := 0, dist := 1/10 }]
      [] (some 2) 1 none 0).documents
      = [{ record := { text := "temporary chunk", documentId := 50, chunkIndex := 0,
                       subjectId := 2, userId := 9, sessionId := 100, isTemporary := true,
                       createdAt := 0, dist := 1/10 },
           category := Category.permanent, score := 59/10 }] := by
    simp only [searchCombinedForVideoQA, searchDocuments, searchDocumentsWithContext,
      subjectFilter, temporaryBucket, permanentBucket, otherBucket, sortDescByScore,
      searchVideoTranscripts, videoSearchEligible, hdc, hvc]
    norm_num [List.filter, List.enum, List.enumFrom, List.insertionSort, List.orderedInsert]
  exact ⟨hmain, by rw [hmain]; rfl⟩

/-- The document pipeline never returns more than `topK` results. -/
theorem searchDocumentsWithContext_length_le (results : List DocR)
    (subjectId userId sessionId : Option Int) (topK : ℕ) (now : Int) :
    (searchDocumentsWithContext results subjectId userId sessionId topK now).length ≤ topK := by
  unfold searchDocumentsWithContext
  split <;> simpa [List.length_take] using min_le_left _ _

/-- The boosted video list never exceeds `videoCount` entries. -/
theorem combineVideoBoost_length_le (currentVideoId : Int) (videoCount : ℕ)
    (videoResults : List VRec) :
    (combineVideoBoost currentVideoId videoCount videoResults).length ≤ videoCount := by
  unfold combineVideoBoost
  simpa [List.length_take] using min_le_left _ _

/-- C8: the 70/30 split of the Video Q&A combiner — `docCount` is the ceiling
of `0.7 K`, `videoCount` the floor of `0.3 K`, the two always sum back to
`K`, and the combiner returns at most `docCount` documents and at most
`videoCount` transcripts. -/
theorem video_qa_split_ratio (topK : ℕ) (docCandidates : List DocR)
    (videoCollection : List VRec) (subjectId : Option Int) (currentVideoId : Option Int)
    (now : Int) :
    docCountZ topK + videoCountZ topK = topK ∧
    (searchCombinedForVideoQA docCandidates videoCollection subjectId topK currentVideoId
        now).documents.length ≤ (docCountZ topK).toNat ∧
    (searchCombinedForVideoQA docCandidates videoCollection subjectId topK currentVideoId
        now).videos.length ≤ (videoCountZ topK).toNat := by
  refine ⟨?_, ?_, ?_⟩
  · have hsplit : ((topK : ℚ) * (3/10)) = -((topK : ℚ) * (7/10)) + ((topK : Int) : ℚ) := by
      push_cast
      ring
    unfold docCountZ videoCountZ
    rw [hsplit, Int.floor_add_int, Int.floor_neg]
    ring
  · simpa [searchCombinedForVideoQA, searchDocuments] using
      searchDocumentsWithContext_length_le docCandidates subjectId none none
        (docCountZ topK).toNat now
  · simp only [searchCombinedForVideoQA]
    rcases currentVideoId with _ | cur
    · simpa [List.length_take] using min_le_left (videoCountZ topK).toNat _
    · by_cases hc : cur = 0
      · simpa [hc, List.length_take] using min_le_left (videoCountZ topK).toNat _
      · simpa [hc] using
          combineVideoBoost_length_le cur (videoCountZ topK).toNat
            (searchVideoTranscripts videoCollection subjectId ((videoCountZ topK).toNat + 3))

/-- Rank lemma for the stable ascending sort: if `x` sits at position `q` of
the input, its score does not exceed `y`'s, and every occurrence of `y` in
the input lies strictly after `q`, then every occurrence of `y` in the sorted
output is preceded by an occurrence of `x` (strict inequalities follow from
sortedness, ties from stability via the decorated index). -/
theorem sortAscByScore_before {l : List VRec} {x y : VRec} {q : ℕ}
    (hq : l[q]? = some x) (hscore : x.score ≤ y.score)
    (hys : ∀ p, l[p]? = some y → q < p) :
    ∀ j : ℕ, (sortAscByScore l)[j]? = some y →
      ∃ i : ℕ, i < j ∧ (sortAscByScore l)[i]? = some x := by
  intro j hj
  simp only [sortAscByScore, List.getElem?_map] at hj
  obtain ⟨pr, hprj, hpry⟩ := Option.map_eq_some'.mp hj
  have hprmem : pr ∈ l.enum :=
    (List.perm_insertionSort scoreIdxLe l.enum).mem_iff.mp (List.getElem?_mem hprj)
  have hpy : l[pr.1]? = some y := by
    have h2 := List.mem_enum_iff_getElem?.mp hprmem
    rw [hpry] at h2
    exact h2
  have hqp : q < pr.1 := hys pr.1 hpy
  have hqx_s : (q, x) ∈ List.insertionSort scoreIdxLe l.enum :=
    (List.perm_insertionSort scoreIdxLe l.enum).mem_iff.mpr
      (List.mk_mem_enum_iff_getElem?.mpr hq)
  obtain ⟨i, hi⟩ := List.mem_iff_getElem?.mp hqx_s
  have hij : i < j := by
    rcases lt_trichotomy i j with h | h | h
    · exact h
    · exfalso
      rw [h, hprj] at hi
      have hpr_eq : pr = (q, x) := by
        exact Option.some.inj hi
      rw [hpr_eq] at hqp
      exact lt_irrefl q hqp
    · exfalso
      obtain ⟨hjlen, hjval⟩ := List.getElem?_eq_some.mp hprj
      obtain ⟨hilen, hival⟩ := List.getElem?_eq_some.mp hi
      have hsorted : List.Pairwise scoreIdxLe (List.insertionSort scoreIdxLe l.enum) :=
        List.sorted_insertionSort scoreIdxLe l.enum
      have hpair := List.pairwise_iff_getElem.mp hsorted j i hjlen hilen h
      rw [hjval, hival] at hpair
      simp only [scoreIdxLe] at hpair
      rcases hpair with hlt | ⟨heq2, hle⟩
      · rw [hpry] at hlt
        exact absurd hlt (not_lt.mpr hscore)
      · exact absurd hle (not_le.mpr hqp)
  refine ⟨i, hij, ?_⟩
  simp only [sortAscByScore, List.getElem?_map, hi]
  rfl

/-- C7: in the Video Q&A combiner with a (truthy) `currentVideoId`, the boost
is directional — for transcript candidates `c` (from the current video) and
`o` (from another video) of equal non-negative raw distance, wherever the
boosted form of `c` and `o` land in the final transcript list, `c` precedes
`o`: every position of the output holding `o` is preceded by one holding the
boosted `c` (in particular `o` never survives the `videoCount` truncation
without `c`). -/
theorem video_boost_directional (docCandidates : List DocR) (videoCollection : List VRec)
    (subjectId : Option Int) (topK : ℕ) (now : Int) (cur : Int) (c o : VRec) (j : ℕ)
    (hcur : cur ≠ 0)
    (hc : c ∈ searchVideoTranscripts videoCollection subjectId ((videoCountZ topK).toNat + 3))
    (hcv : c.videoId = cur) (hov : o.videoId ≠ cur) (heq : c.score = o.score)
    (hnn : 0 ≤ c.score)
    (hj : (searchCombinedForVideoQA docCandidates videoCollection subjectId topK (some cur)
        now).videos[j]? = some o) :
    ∃ i : ℕ, i < j ∧ (searchCombinedForVideoQA docCandidates videoCollection subjectId topK
        (some cur) now).videos[i]? = some (boostRec c) := by
  have hvids : (searchCombinedForVideoQA docCandidates videoCollection subjectId topK (some cur)
        now).videos
      = combineVideoBoost cur (videoCountZ topK).toNat
          (searchVideoTranscripts videoCollection subjectId ((videoCountZ topK).toNat + 3)) := by
    simp [searchCombinedForVideoQA, hcur]
  rw [hvids] at hj
  set vr := searchVideoTranscripts videoCollection subjectId ((videoCountZ topK).toNat + 3)
    with hvr
  set boosted := (vr.filter (fun r => decide (r.videoId = cur))).map boostRec with hboosted
  set combined := boosted ++ vr.filter (fun r => decide (r.videoId ≠ cur)) with hcombined
  have hcb : combineVideoBoost cur (videoCountZ topK).toNat vr
      = (sortAscByScore combined).take (videoCountZ topK).toNat := rfl
  rw [hcb] at hj
  have hjlt : j < (videoCountZ topK).toNat := by
    by_contra hge
    rw [List.getElem?_eq_none (by simp [List.length_take]; omega)] at hj
    exact Option.noConfusion hj
  rw [List.getElem?_take_of_lt hjlt] at hj
  have hcmem : boostRec c ∈ boosted := by
    rw [hboosted]
    exact List.mem_map_of_mem boostRec (List.mem_filter.mpr ⟨hc, by simp [hcv]⟩)
  obtain ⟨q, hqlen, hqval⟩ : ∃ q, ∃ hlt : q < boosted.length, boosted[q] = boostRec c := by
    simpa [List.mem_iff_getElem] using hcmem
  have hcq : combined[q]? = some (boostRec c) := by
    rw [hcombined, List.getElem?_append_left hqlen, List.getElem?_eq_getElem hqlen, hqval]
  have hscore2 : (boostRec c).score ≤ o.score := by
    simp only [boostRec, heq]
    linarith [heq ▸ hnn]
  have hys : ∀ p, combined[p]? = some o → q < p := by
    intro p hp
    by_contra hle
    push_neg at hle
    have hplt : p < boosted.length := lt_of_le_of_lt hle hqlen
    rw [hcombined, List.getElem?_append_left hplt] at hp
    have homem : o ∈ boosted := List.getElem?_mem hp
    rw [hboosted] at homem
    obtain ⟨b, hbmem, hbo⟩ := List.mem_map.mp homem
    have hbvid : b.videoId = cur := by
      have := List.mem_filter.mp hbmem
      simpa using this.2
    have : o.videoId = cur := by
      rw [← hbo]
      simpa [boostRec] using hbvid
    exact hov this
  obtain ⟨i, hij, hival⟩ := sortAscByScore_before hcq hscore2 hys j hj
  refine ⟨i, hij, ?_⟩
  rw [hvids, hcb, List.getElem?_take_of_lt (lt_trans hij hjlt)]
  exact hival

/-- Concrete instantiation of `video_boost_directional`: two transcript
candidates of equal raw distance 1, one from the current video 5 and one from
video 6 (listed first); in the combined output the boosted current-video
chunk precedes the other. -/
theorem video_boost_directional_witness :
    ∃ i : ℕ, i < 1 ∧
      (searchCombinedForVideoQA []
          [{ text := "other", videoId := 6, chunkId := 1, subjectId := 1, score := 1 },
           { text := "cur", videoId := 5, chunkId := 0, subjectId := 1, score := 1 }]
          none 7 (some 5) 0).videos[i]?
        = some (boostRec { text := "cur", videoId := 5, chunkId := 0, subjectId := 1,
                           score := 1 }) := by
  have hvc7 : videoCountZ 7 = 2 := by
    rw [videoCountZ, Int.floor_eq_iff] <;> norm_num
  have hvr : searchVideoTranscripts
      [{ text := "other", videoId := 6, chunkId := 1, subjectId := 1, score := 1 },
       { text := "cur", videoId := 5, chunkId := 0, subjectId := 1, score := 1 }]
      none ((videoCountZ 7).toNat + 3)
      = [{ text := "other", videoId := 6, chunkId := 1, subjectId := 1, score := 1 },
         { text := "cur", videoId := 5, chunkId := 0, subjectId := 1, score := 1 }] := by
    rw [hvc7]
    rfl
  have hj : (searchCombinedForVideoQA []
      [{ text := "other", videoId := 6, chunkId := 1, subjectId := 1, score := 1 },
       { text := "cur", videoId := 5, chunkId := 0, subjectId := 1, score := 1 }]
      none 7 (some 5) 0).videos[1]?
      = some { text := "other", videoId := 6, chunkId := 1, subjectId := 1, score := 1 } := by
    have hvids : (searchCombinedForVideoQA []
        [{ text := "other", videoId := 6, chunkId := 1, subjectId := 1, score := 1 },
         { text := "cur", videoId := 5, chunkId := 0, subjectId := 1, score := 1 }]
        none 7 (some 5) 0).videos
        = combineVideoBoost 5 (videoCountZ 7).toNat
            (searchVideoTranscripts
              [{ text := "other", videoId := 6, chunkId := 1, subjectId := 1, score := 1 },
               { text := "cur", videoId := 5, chunkId := 0, subjectId := 1, score := 1 }]
              none ((videoCountZ 7).toNat + 3)) := by
      simp [searchCombinedForVideoQA]
    rw [hvids, hvr, hvc7]
    show (combineVideoBoost 5 2
        [{ text := "other", videoId := 6, chunkId := 1, subjectId := 1, score := 1 },
         { text := "cur", videoId := 5, chunkId := 0, subjectId := 1, score := 1 }])[1]?
        = some { text := "other", videoId := 6, chunkId := 1, subjectId := 1, score := 1 }
    simp only [combineVideoBoost, sortAscByScore, boostRec]
    norm_num [List.filter, List.enum, List.enumFrom, List.insertionSort, List.orderedInsert,
      scoreIdxLe]
    refine ⟨1, ?_⟩
    rw [if_pos]
    · rfl
    · left
      norm_num [boostRec]
  exact video_boost_directional []
    [{ text := "other", videoId := 6, chunkId := 1, subjectId := 1, score := 1 },
     { text := "cur", videoId := 5, chunkId := 0, subjectId := 1, score := 1 }]
    none 7 0 5
    { text := "cur", videoId := 5, chunkId := 0, subjectId := 1, score := 1 }
    { text := "other", videoId := 6, chunkId := 1, subjectId := 1, score := 1 }
    1 (by norm_num) (by rw [hvr]; simp) rfl (by norm_num) rfl (by norm_num) hj

end VectorSvc
